import Mathlib

/-!
Verification of the heat-stress risk scoring logic of `src/app.py`
(repository Takshi07/heat-stress-awareness).

The logic-bearing code is the pure function `calculate_risk(temp, humidity,
hours, activity)` together with the Batch Analysis mode, which checks for
the four required columns and maps `calculate_risk` over every row of the
uploaded table.  We embed both shallowly: numbers are `Int`, the Python
dict lookup (which raises `KeyError` on an unknown activity) becomes an
`Option`-valued association-list lookup, and the whole of `calculate_risk`
becomes an `Option`-valued function that is `none` exactly when the Python
code would raise.
-/

namespace HeatStress

/-- The activity score table: `activity_scores = {"Light": 1, "Moderate": 2,
"Heavy": 3}` from `src/app.py` line 104. -/
def activity_scores : List (String × Int) :=
  [("Light", 1), ("Moderate", 2), ("Heavy", 3)]

/-- Shallow embedding of `calculate_risk` (`src/app.py` lines 91-115).
The accumulating `risk_score` of the Python code is threaded through
shadowed `let`s; the dict lookup `activity_scores[activity]` raises
`KeyError` on an unknown key, embedded as the `none` branch. -/
def calculate_risk (temp humidity hours : Int) (activity : String) :
    Option (String × Int) :=
  let risk_score : Int := 0
  let risk_score := if temp ≥ 40 then risk_score + 3
                    else if temp ≥ 35 then risk_score + 2
                    else risk_score
  let risk_score := if humidity ≥ 70 then risk_score + 2 else risk_score
  let risk_score := if hours ≥ 6 then risk_score + 2 else risk_score
  match activity_scores.lookup activity with
  | none => none
  | some a =>
    let risk_score := risk_score + a
    let risk_level := if risk_score ≥ 8 then "High"
                      else if risk_score ≥ 5 then "Moderate"
                      else "Low"
    some (risk_level, risk_score)

/-- The temperature branch of `calculate_risk` (lines 94-97), read off as a
per-factor contribution. -/
def temp_contribution (temp : Int) : Int :=
  if temp ≥ 40 then 3 else if temp ≥ 35 then 2 else 0

/-- The humidity branch of `calculate_risk` (lines 99-100). -/
def humidity_contribution (humidity : Int) : Int :=
  if humidity ≥ 70 then 2 else 0

/-- The duration branch of `calculate_risk` (lines 102-103). -/
def duration_contribution (hours : Int) : Int :=
  if hours ≥ 6 then 2 else 0

/-- The score-to-level branch of `calculate_risk` (lines 108-113). -/
def risk_level_of_score (score : Int) : String :=
  if score ≥ 8 then "High" else if score ≥ 5 then "Moderate" else "Low"

/-- Rank of a level under the ordering Low < Moderate < High. -/
def level_rank (level : String) : Nat :=
  if level = "High" then 2 else if level = "Moderate" then 1 else 0

/-- One row of an uploaded batch table carrying the four required fields.
Row access in the source is `row['temperature']` etc. (lines 466-470). -/
structure BatchRow where
  temperature : Int
  humidity : Int
  duration : Int
  activity : String
deriving DecidableEq, Repr

/-- The required batch columns checked at line 462 of `src/app.py`. -/
def required_columns : List String :=
  ["temperature", "humidity", "duration", "activity"]

/-- The error message shown when columns are missing (line 497). -/
def missing_columns_error : String :=
  "CSV must contain: temperature, humidity, duration, activity columns"

/-- The loop over `batch_df.iterrows()` (lines 464-471): each row is scored
with `calculate_risk` and the results are collected in input order; a
`KeyError` inside the loop aborts the whole loop, embedded as `none`. -/
def process_rows : List BatchRow → Option (List (BatchRow × String × Int))
  | [] => some []
  | r :: rs =>
    match calculate_risk r.temperature r.humidity r.duration r.activity with
    | none => none
    | some res =>
      match process_rows rs with
      | none => none
      | some rest => some ((r, res.1, res.2) :: rest)

/-- The Batch Analysis mode (lines 462-498): if every required column is
present the rows are processed and the `risk_level` / `risk_score` columns
are appended to the otherwise-unchanged rows (a result row is the pair of
the original row and the computed level and score); otherwise the whole
batch is rejected with `missing_columns_error`. -/
def batch_analysis (cols : List String) (rows : List BatchRow) :
    Except String (List (BatchRow × String × Int)) :=
  if required_columns.all (fun c => cols.contains c) then
    match process_rows rows with
    | none => Except.error "KeyError"
    | some out => Except.ok out
  else
    Except.error missing_columns_error

/-! ## Helper lemmas -/

/-- Inverting the activity lookup: a successful lookup pins down both the
label and the contribution. -/
theorem lookup_activity_cases {a : String} {ac : Int}
    (h : activity_scores.lookup a = some ac) :
    (a = "Light" ∧ ac = 1) ∨ (a = "Moderate" ∧ ac = 2) ∨
      (a = "Heavy" ∧ ac = 3) := by
  by_cases h1 : a = "Light"
  · subst h1
    simp [activity_scores, List.lookup] at h
    exact Or.inl ⟨rfl, h.symm⟩
  · by_cases h2 : a = "Moderate"
    · subst h2
      simp [activity_scores, List.lookup] at h
      exact Or.inr (Or.inl ⟨rfl, h.symm⟩)
    · by_cases h3 : a = "Heavy"
      · subst h3
        simp [activity_scores, List.lookup] at h
        exact Or.inr (Or.inr ⟨rfl, h.symm⟩)
      · have e1 : (a == "Light") = false := beq_eq_false_iff_ne.mpr h1
        have e2 : (a == "Moderate") = false := beq_eq_false_iff_ne.mpr h2
        have e3 : (a == "Heavy") = false := beq_eq_false_iff_ne.mpr h3
        simp [activity_scores, List.lookup, e1, e2, e3] at h

/-- A successful activity lookup yields a contribution of 1, 2 or 3. -/
theorem lookup_activity_bounds {a : String} {ac : Int}
    (h : activity_scores.lookup a = some ac) : 1 ≤ ac ∧ ac ≤ 3 := by
  rcases lookup_activity_cases h with ⟨_, h⟩ | ⟨_, h⟩ | ⟨_, h⟩ <;>
    subst h <;> exact ⟨by norm_num, by norm_num⟩

/-- When the activity is recognized, `calculate_risk` returns the level and
the score, and the score is the sum of the four per-factor contributions. -/
theorem calculate_risk_eq (temp humidity hours : Int) {a : String} {ac : Int}
    (h : activity_scores.lookup a = some ac) :
    calculate_risk temp humidity hours a =
      some (risk_level_of_score
              (temp_contribution temp + humidity_contribution humidity +
                duration_contribution hours + ac),
            temp_contribution temp + humidity_contribution humidity +
              duration_contribution hours + ac) := by
  simp only [calculate_risk, h, temp_contribution, humidity_contribution,
    duration_contribution, risk_level_of_score]
  split_ifs <;> simp <;> omega

/-- Bounds on the temperature contribution. -/
theorem temp_contribution_bounds (t : Int) :
    0 ≤ temp_contribution t ∧ temp_contribution t ≤ 3 := by
  unfold temp_contribution
  split_ifs <;> omega

/-- Bounds on the humidity contribution. -/
theorem humidity_contribution_bounds (h : Int) :
    0 ≤ humidity_contribution h ∧ humidity_contribution h ≤ 2 := by
  unfold humidity_contribution
  split_ifs <;> omega

/-- Bounds on the duration contribution. -/
theorem duration_contribution_bounds (d : Int) :
    0 ≤ duration_contribution d ∧ duration_contribution d ≤ 2 := by
  unfold duration_contribution
  split_ifs <;> omega

/-- The level computed at lines 108-113 is characterized by the three
threshold intervals. -/
theorem risk_level_of_score_spec (s : Int) :
    (risk_level_of_score s = "High" ↔ s ≥ 8) ∧
    (risk_level_of_score s = "Moderate" ↔ 5 ≤ s ∧ s ≤ 7) ∧
    (risk_level_of_score s = "Low" ↔ s ≤ 4) := by
  unfold risk_level_of_score
  split_ifs with h1 h2 <;>
    refine ⟨⟨fun hx => ?_, fun hx => ?_⟩, ⟨fun hx => ?_, fun hx => ?_⟩,
            ⟨fun hx => ?_, fun hx => ?_⟩⟩ <;>
    first
      | rfl
      | omega
      | (exfalso; revert hx; simp)

/-- Numeric form of the level of a score under the Low < Moderate < High
ranking. -/
theorem level_rank_risk_level (s : Int) :
    level_rank (risk_level_of_score s) =
      if s ≥ 8 then 2 else if s ≥ 5 then 1 else 0 := by
  unfold risk_level_of_score
  split_ifs <;> decide

/-! ## Claim theorems -/

/-- Claim C2: for every temperature t, the temperature contribution to the
risk score is 3 when t ≥ 40, 2 when 35 ≤ t < 40, and 0 when t < 35. -/
theorem C2_temperature_contribution (t : Int) :
    (t ≥ 40 → temp_contribution t = 3) ∧
    (35 ≤ t ∧ t < 40 → temp_contribution t = 2) ∧
    (t < 35 → temp_contribution t = 0) := by
  unfold temp_contribution
  refine ⟨fun h => ?_, fun h => ?_, fun h => ?_⟩ <;> split_ifs <;> omega

/-- Witness for C2 at temperatures 42, 36 and 30. -/
theorem C2_temperature_contribution_witness :
    temp_contribution 42 = 3 ∧ temp_contribution 36 = 2 ∧
      temp_contribution 30 = 0 :=
  ⟨(C2_temperature_contribution 42).1 (by decide),
   (C2_temperature_contribution 36).2.1 ⟨by decide, by decide⟩,
   (C2_temperature_contribution 30).2.2 (by decide)⟩

/-- Claim C3: the humidity contribution is 2 when h ≥ 70 and 0 otherwise;
the duration contribution is 2 when d ≥ 6 and 0 otherwise; and the activity
contribution is exactly 1 for Light, 2 for Moderate and 3 for Heavy. -/
theorem C3_other_contributions (h d : Int) :
    (h ≥ 70 → humidity_contribution h = 2) ∧
    (h < 70 → humidity_contribution h = 0) ∧
    (d ≥ 6 → duration_contribution d = 2) ∧
    (d < 6 → duration_contribution d = 0) ∧
    activity_scores.lookup "Light" = some 1 ∧
    activity_scores.lookup "Moderate" = some 2 ∧
    activity_scores.lookup "Heavy" = some 3 := by
  refine ⟨fun hx => ?_, fun hx => ?_, fun hx => ?_, fun hx => ?_,
          by decide, by decide, by decide⟩ <;>
    simp only [humidity_contribution, duration_contribution] <;>
    split_ifs <;> omega

/-- Witness for C3 at humidity 80 and 50, duration 7 and 3. -/
theorem C3_other_contributions_witness :
    humidity_contribution 80 = 2 ∧ humidity_contribution 50 = 0 ∧
    duration_contribution 7 = 2 ∧ duration_contribution 3 = 0 ∧
    activity_scores.lookup "Moderate" = some 2 :=
  ⟨(C3_other_contributions 80 7).1 (by decide),
   (C3_other_contributions 50 7).2.1 (by decide),
   (C3_other_contributions 80 7).2.2.1 (by decide),
   (C3_other_contributions 80 3).2.2.2.1 (by decide),
   (C3_other_contributions 80 7).2.2.2.2.2.1⟩

/-- Claim C4: whenever calculate_risk returns a level and a score, the level
is High exactly when score ≥ 8, Moderate exactly when 5 ≤ score ≤ 7, and
Low exactly when score ≤ 4. -/
theorem C4_level_thresholds (t h d : Int) (a lvl : String) (s : Int)
    (hc : calculate_risk t h d a = some (lvl, s)) :
    (lvl = "High" ↔ s ≥ 8) ∧ (lvl = "Moderate" ↔ 5 ≤ s ∧ s ≤ 7) ∧
    (lvl = "Low" ↔ s ≤ 4) := by
  cases hl : activity_scores.lookup a with
  | none =>
    unfold calculate_risk at hc
    rw [hl] at hc
    simp at hc
  | some ac =>
    rw [calculate_risk_eq t h d hl] at hc
    simp only [Option.some.injEq, Prod.mk.injEq] at hc
    obtain ⟨h1, h2⟩ := hc
    rw [← h1, ← h2]
    exact risk_level_of_score_spec _

/-- Witness for C4 at input (40, 75, 6, Heavy), which scores 10 → High. -/
theorem C4_level_thresholds_witness :
    ("High" = "High" ↔ (10 : Int) ≥ 8) ∧
    ("High" = "Moderate" ↔ (5 : Int) ≤ 10 ∧ (10 : Int) ≤ 7) ∧
    ("High" = "Low" ↔ (10 : Int) ≤ 4) :=
  C4_level_thresholds 40 75 6 "Heavy" "High" 10 (by decide)

/-- Claim C5: the level-from-score function is monotonic non-decreasing
under the ordering Low < Moderate < High. -/
theorem C5_level_monotone (s1 s2 : Int) (hle : s1 ≤ s2) :
    level_rank (risk_level_of_score s1) ≤ level_rank (risk_level_of_score s2) := by
  rw [level_rank_risk_level, level_rank_risk_level]
  split_ifs <;> omega

/-- Witness for C5 at scores 3 ≤ 9. -/
theorem C5_level_monotone_witness :
    level_rank (risk_level_of_score 3) ≤ level_rank (risk_level_of_score 9) :=
  C5_level_monotone 3 9 (by decide)

/-- Claim C1: for every temperature in [25,50], humidity in [30,90],
duration in [1,10], and recognized activity, calculate_risk returns the
level of a score that equals the sum of the four per-factor contributions,
and that score lies in the interval [1,12]. -/
theorem C1_score_is_sum_and_in_range (t h d : Int) (a : String) (ac : Int)
    (_ht1 : 25 ≤ t) (_ht2 : t ≤ 50) (_hh1 : 30 ≤ h) (_hh2 : h ≤ 90)
    (_hd1 : 1 ≤ d) (_hd2 : d ≤ 10)
    (ha : activity_scores.lookup a = some ac) :
    calculate_risk t h d a =
      some (risk_level_of_score
              (temp_contribution t + humidity_contribution h +
                duration_contribution d + ac),
            temp_contribution t + humidity_contribution h +
              duration_contribution d + ac) ∧
    1 ≤ temp_contribution t + humidity_contribution h +
          duration_contribution d + ac ∧
    temp_contribution t + humidity_contribution h +
        duration_contribution d + ac ≤ 12 := by
  obtain ⟨ha1, ha2⟩ := lookup_activity_bounds ha
  obtain ⟨hb1, hb2⟩ := temp_contribution_bounds t
  obtain ⟨hc1, hc2⟩ := humidity_contribution_bounds h
  obtain ⟨he1, he2⟩ := duration_contribution_bounds d
  exact ⟨calculate_risk_eq t h d ha, by omega, by omega⟩

/-- Witness for C1 at input (40, 75, 6, Heavy). -/
theorem C1_score_is_sum_and_in_range_witness :
    calculate_risk 40 75 6 "Heavy" =
      some (risk_level_of_score
              (temp_contribution 40 + humidity_contribution 75 +
                duration_contribution 6 + 3),
            temp_contribution 40 + humidity_contribution 75 +
              duration_contribution 6 + 3) ∧
    1 ≤ temp_contribution 40 + humidity_contribution 75 +
          duration_contribution 6 + 3 ∧
    temp_contribution 40 + humidity_contribution 75 +
        duration_contribution 6 + 3 ≤ 12 :=
  C1_score_is_sum_and_in_range 40 75 6 "Heavy" 3 (by decide) (by decide)
    (by decide) (by decide) (by decide) (by decide) (by decide)

/-- Claim C6: for every activity label other than Light, Moderate and
Heavy, calculate_risk errors (the dict lookup at line 106 raises KeyError,
embedded as none) instead of silently defaulting to some contribution. -/
theorem C6_unknown_activity_rejected (t h d : Int) (a : String)
    (ha : a ≠ "Light") (hb : a ≠ "Moderate") (hc : a ≠ "Heavy") :
    calculate_risk t h d a = none := by
  have e1 : (a == "Light") = false := beq_eq_false_iff_ne.mpr ha
  have e2 : (a == "Moderate") = false := beq_eq_false_iff_ne.mpr hb
  have e3 : (a == "Heavy") = false := beq_eq_false_iff_ne.mpr hc
  unfold calculate_risk
  simp [activity_scores, List.lookup, e1, e2, e3]

/-- Witness for C6 at the unrecognized activity label "Sprinting". -/
theorem C6_unknown_activity_rejected_witness :
    calculate_risk 30 50 2 "Sprinting" = none :=
  C6_unknown_activity_rejected 30 50 2 "Sprinting" (by decide) (by decide)
    (by decide)

/-- Counterexample to claim C7: temperature 100 lies outside the declared
range [25,50], yet calculate_risk returns a score (Low, 4) instead of
rejecting the input with a validation error. -/
theorem C7_counterexample :
    calculate_risk 100 50 3 "Light" = some ("Low", 4) := by
  decide

/-- Claim C7 as amended: calculate_risk performs no numeric range
validation; for every temperature, humidity and duration — in range or
not — and every recognized activity, it returns a risk result, never an
error. Range enforcement exists only as UI widget bounds. -/
theorem C7_no_numeric_validation (t h d : Int) (a : String) (ac : Int)
    (ha : activity_scores.lookup a = some ac) :
    ∃ lvl s, calculate_risk t h d a = some (lvl, s) :=
  ⟨_, _, calculate_risk_eq t h d ha⟩

/-- Witness for the amended C7 at the out-of-range temperature 100. -/
theorem C7_no_numeric_validation_witness :
    ∃ lvl s, calculate_risk 100 50 3 "Light" = some (lvl, s) :=
  C7_no_numeric_validation 100 50 3 "Light" 1 (by decide)

/-- Claim C10 (implicit): for every in-range input the score produced by
calculate_risk is at most 10 — in particular never 11 or 12 — and 10 is
attained at (40, 70, 6, Heavy). -/
theorem C10_max_score_ten (t h d : Int) (a lvl : String) (s : Int)
    (_ht1 : 25 ≤ t) (_ht2 : t ≤ 50) (_hh1 : 30 ≤ h) (_hh2 : h ≤ 90)
    (_hd1 : 1 ≤ d) (_hd2 : d ≤ 10)
    (hc : calculate_risk t h d a = some (lvl, s)) :
    s ≤ 10 ∧ s ≠ 11 ∧ s ≠ 12 ∧
      calculate_risk 40 70 6 "Heavy" = some ("High", 10) := by
  cases hl : activity_scores.lookup a with
  | none =>
    unfold calculate_risk at hc
    rw [hl] at hc
    simp at hc
  | some ac =>
    rw [calculate_risk_eq t h d hl] at hc
    simp only [Option.some.injEq, Prod.mk.injEq] at hc
    obtain ⟨h1, h2⟩ := hc
    obtain ⟨ha1, ha2⟩ := lookup_activity_bounds hl
    obtain ⟨hb1, hb2⟩ := temp_contribution_bounds t
    obtain ⟨hc1, hc2⟩ := humidity_contribution_bounds h
    obtain ⟨he1, he2⟩ := duration_contribution_bounds d
    exact ⟨by omega, by omega, by omega, by decide⟩

/-- Witness for C10 at input (40, 70, 6, Heavy), which scores exactly 10. -/
theorem C10_max_score_ten_witness :
    (10 : Int) ≤ 10 ∧ (10 : Int) ≠ 11 ∧ (10 : Int) ≠ 12 ∧
      calculate_risk 40 70 6 "Heavy" = some ("High", 10) :=
  C10_max_score_ten 40 70 6 "Heavy" "High" 10 (by decide) (by decide)
    (by decide) (by decide) (by decide) (by decide) (by decide)

/-- Processing a list of rows whose activities are all recognized succeeds
and pairs every input row, unchanged and in order, with its risk result. -/
theorem process_rows_spec (rows : List BatchRow)
    (hv : ∀ r ∈ rows, ∃ ac, activity_scores.lookup r.activity = some ac) :
    ∃ out, process_rows rows = some out ∧ out.map Prod.fst = rows ∧
      ∀ p ∈ out, calculate_risk p.1.temperature p.1.humidity p.1.duration
        p.1.activity = some p.2 := by
  induction rows with
  | nil => exact ⟨[], rfl, rfl, by simp⟩
  | cons r rs ih =>
    obtain ⟨ac, hac⟩ := hv r (List.mem_cons_self r rs)
    obtain ⟨out, hout, hmap, hall⟩ :=
      ih (fun x hx => hv x (List.mem_cons_of_mem r hx))
    have hcr := calculate_risk_eq r.temperature r.humidity r.duration hac
    refine ⟨(r, risk_level_of_score
        (temp_contribution r.temperature + humidity_contribution r.humidity +
          duration_contribution r.duration + ac),
      temp_contribution r.temperature + humidity_contribution r.humidity +
        duration_contribution r.duration + ac) :: out, ?_, ?_, ?_⟩
    · simp [process_rows, hcr, hout]
    · simp [hmap]
    · intro p hp
      rcases List.mem_cons.mp hp with hh | hh
      · subst hh
        exact hcr
      · exact hall p hh

/-- Claim C8: a batch whose columns include the four required ones and
whose N rows are all valid is processed into exactly N result rows, in
input order, each an unchanged input row paired with its appended
risk_level and risk_score. -/
theorem C8_batch_preserves_rows (cols : List String) (rows : List BatchRow)
    (hcols : ∀ c ∈ required_columns, c ∈ cols)
    (hvalid : ∀ r ∈ rows, 25 ≤ r.temperature ∧ r.temperature ≤ 50 ∧
      30 ≤ r.humidity ∧ r.humidity ≤ 90 ∧ 1 ≤ r.duration ∧ r.duration ≤ 10 ∧
      (r.activity = "Light" ∨ r.activity = "Moderate" ∨
        r.activity = "Heavy")) :
    ∃ out, batch_analysis cols rows = Except.ok out ∧
      out.length = rows.length ∧ out.map Prod.fst = rows ∧
      ∀ p ∈ out, calculate_risk p.1.temperature p.1.humidity p.1.duration
        p.1.activity = some p.2 := by
  have hv : ∀ r ∈ rows, ∃ ac, activity_scores.lookup r.activity = some ac := by
    intro r hr
    rcases (hvalid r hr).2.2.2.2.2.2 with hh | hh | hh <;> rw [hh]
    · exact ⟨1, by decide⟩
    · exact ⟨2, by decide⟩
    · exact ⟨3, by decide⟩
  obtain ⟨out, hout, hmap, hall⟩ := process_rows_spec rows hv
  have hcond : required_columns.all (fun c => cols.contains c) = true := by
    rw [List.all_eq_true]
    intro c hcmem
    exact List.elem_eq_true_of_mem (hcols c hcmem)
  refine ⟨out, ?_, ?_, hmap, hall⟩
  · unfold batch_analysis
    rw [hcond, hout]
    rfl
  · rw [← hmap, List.length_map]

/-- Witness for C8 on a one-row batch carrying exactly the required
columns. -/
theorem C8_batch_preserves_rows_witness :
    ∃ out, batch_analysis required_columns
        [⟨35, 60, 4, "Moderate"⟩] = Except.ok out ∧
      out.length = [(⟨35, 60, 4, "Moderate"⟩ : BatchRow)].length ∧
      out.map Prod.fst = [⟨35, 60, 4, "Moderate"⟩] ∧
      ∀ p ∈ out, calculate_risk p.1.temperature p.1.humidity p.1.duration
        p.1.activity = some p.2 :=
  C8_batch_preserves_rows required_columns [⟨35, 60, 4, "Moderate"⟩]
    (by decide) (by decide)

/-- Claim C9: a batch missing any of the required columns is rejected
whole — batch_analysis returns the descriptive column error for every rows
list, so no row is processed. -/
theorem C9_missing_column_rejects (cols : List String) (rows : List BatchRow)
    (c : String) (hreq : c ∈ required_columns) (hmiss : c ∉ cols) :
    batch_analysis cols rows = Except.error missing_columns_error := by
  have hcond : required_columns.all (fun x => cols.contains x) = false := by
    rw [List.all_eq_false]
    exact ⟨c, hreq, by simp [hmiss]⟩
  unfold batch_analysis
  rw [hcond]
  rfl

/-- Witness for C9: a batch with only a temperature column (and one row)
is rejected because the humidity column is missing. -/
theorem C9_missing_column_rejects_witness :
    batch_analysis ["temperature"] [⟨35, 60, 4, "Moderate"⟩] =
      Except.error missing_columns_error :=
  C9_missing_column_rejects ["temperature"] [⟨35, 60, 4, "Moderate"⟩]
    "humidity" (by decide) (by decide)

end HeatStress

example : HeatStress.calculate_risk 40 75 6 "Heavy" = some ("High", 10) := by
  decide

example : HeatStress.calculate_risk 28 50 3 "Light" = some ("Low", 1) := by
  decide

example : HeatStress.calculate_risk 36 60 4 "Moderate" = some ("Low", 4) := by
  decide
